import Mathlib

/-!
# Verification of the WaterTAP zero-order unit-model repository

This file gives a shallow embedding of the repository's domain content:

* `watertap/unit_models/zero_order/electrocoagulation_zo.py` — the
  `ElectrocoagulationZOData.build` method, embedded as a pure description of
  the variables it declares, the side effects its constraint rule performs
  (the `breakpoint()` call on line 91), and the algebraic content of the
  `energy_consumption_constraint` it adds.

* The `CoolingTowerZO` zero-order unit, its parameter database, property
  calculations, report and costing.  The implementation of these lives
  outside the repository snapshot (only `tests/test_cooling_tower_zo.py` is
  present), so they are modelled from the specification: a zero-order model
  uses fixed removal/recovery fractions, database lookups fix parameter
  variables, and degrees of freedom count unconstrained variables of a
  square algebraic system.

* The stoichiometric-softening pretreatment examples, for which only the
  regression test `test_pretreatment.py` is in the snapshot.

Real-valued quantities of the electrocoagulation model are embedded in `ℝ`
(the energy correlation uses `Real.log`); the cooling-tower model is embedded
in `ℚ` so that all constraint checks are decidable.
-/

namespace WaterTAP

/-! ## Electrocoagulation zero-order model (`electrocoagulation_zo.py`) -/

/-- The constant `idaes.core.util.constants.Constants.faraday_constant`
(C/mol), the CODATA value used by the energy-consumption correlation. -/
noncomputable def faraday_constant : ℝ := 96485.33212331001

/-- The conversion `pyunits.convert(x, to_units=pyunits.A/pyunits.cm**2)`
applied to a quantity whose native units are mA/cm²: the numeric value is
divided by 1000. -/
noncomputable def convert_mA_to_A (x : ℝ) : ℝ := x / 1000

/-- An observable effect performed while `build` runs. -/
inductive BuildEvent where
  | debuggerBreak : BuildEvent
  | addConstraint : String → BuildEvent
deriving DecidableEq, Repr

/-- The numeric state of the variables declared by
`ElectrocoagulationZOData.build`: the five fixed performance parameters and
the two time-indexed variables. -/
structure ECVars where
  electrode_spacing : ℝ
  solution_conductivity : ℝ
  power_density_k1 : ℝ
  power_density_k2 : ℝ
  z_valence : ℝ
  current_density : ℝ → ℝ
  energy_consumption : ℝ → ℝ

/-- An equality constraint, kept as its two sides. -/
structure ConstraintEq where
  lhs : ℝ
  rhs : ℝ

/-- A constraint holds when its two sides are equal. -/
def ConstraintEq.holds (c : ConstraintEq) : Prop := c.lhs = c.rhs

/-- A Pyomo variable declaration: name and (lower, upper) bounds. -/
structure VarDecl where
  name : String
  lb : Option ℝ
  ub : Option ℝ

/-- The body of the `energy_consumption_constraint` rule
(`electrocoagulation_zo.py`, lines 88–96), embedded as the list of side
effects it performs followed by the equality it returns.  Line 91 of the
source is a bare `breakpoint()` call executed before the expression is
built, hence the `debuggerBreak` event. -/
noncomputable def energy_consumption_rule (b : ECVars) (t : ℝ) : List BuildEvent × ConstraintEq :=
  let current_density_in := convert_mA_to_A (b.current_density t)
  let ohmic_resistance := b.electrode_spacing / b.solution_conductivity
  ([BuildEvent.debuggerBreak],
   { lhs := b.energy_consumption t
     rhs := (current_density_in * ohmic_resistance
              + b.power_density_k1 * Real.log current_density_in
              + b.power_density_k2)
            * (b.z_valence * faraday_constant / (3600 * 10 ^ 6)) })

/-- Result of `ElectrocoagulationZOData.build`: the variables it declares,
the trace of effects performed while constructing the time-indexed
constraint, and the constraints indexed by time point. -/
structure ECBuildResult where
  varDecls : List VarDecl
  events : List BuildEvent
  constraints : List (ℝ × ConstraintEq)

/-- The method `ElectrocoagulationZOData.build` (lines 32–101): declares the
five unbounded parameter variables, `current_density` with bounds `(1, 9)` and
`energy_consumption`, then runs the constraint rule once per flowsheet time
point. -/
noncomputable def ecBuild (time : List ℝ) (b : ECVars) : ECBuildResult :=
  { varDecls :=
      [⟨"electrode_spacing", none, none⟩,
       ⟨"solution_conductivity", none, none⟩,
       ⟨"power_density_k1", none, none⟩,
       ⟨"power_density_k2", none, none⟩,
       ⟨"z_valence", none, none⟩,
       ⟨"current_density", some 1, some 9⟩,
       ⟨"energy_consumption", none, none⟩]
    events :=
      (time.map (fun t =>
        (energy_consumption_rule b t).1
          ++ [BuildEvent.addConstraint "energy_consumption_constraint"])).flatten
    constraints := time.map (fun t => (t, (energy_consumption_rule b t).2)) }

/-- The claim's statement of the energy-consumption-vs-current-density
correlation, written from the specification's words: with `i` the current
density converted to A/cm², the energy consumption is
`(i * (electrode_spacing / solution_conductivity) + k1 * log i + k2)
  * (z * F / (3600 * 10^6))`. -/
noncomputable def spec_energy_consumption (b : ECVars) (t : ℝ) : ℝ :=
  (convert_mA_to_A (b.current_density t)
      * (b.electrode_spacing / b.solution_conductivity)
    + b.power_density_k1 * Real.log (convert_mA_to_A (b.current_density t))
    + b.power_density_k2)
  * (b.z_valence * faraday_constant / (3600 * 10 ^ 6))

/-- A concrete instance of the electrocoagulation variables, used by the
closed-form witnesses. -/
noncomputable def ecSample : ECVars :=
  { electrode_spacing := 2
    solution_conductivity := 5
    power_density_k1 := 7
    power_density_k2 := 11
    z_valence := 3
    current_density := fun _ => 3
    energy_consumption := fun _ => 0 }

/-! ## Cooling tower zero-order model

The implementation of `CoolingTowerZO`, the parameter `Database`, the
zero-order property package and the costing package are not part of this
source snapshot — only `tests/test_cooling_tower_zo.py` is — so the
definitions below are modelled from the specification.  All values live in
`ℚ` so every check is decidable. -/

/-- Modelled from the spec: the shape of a unit-operation entry of the
parameter database returned by `get_unit_operation_parameters`, holding the
fixed recovery/removal fractions, the default removal fraction, the
electricity intensity and the cycles of concentration. -/
structure CoolingTowerDBEntry where
  recovery_frac_mass_H2O : ℚ
  removal_frac_mass_solute : List (String × ℚ)
  default_removal_frac_mass_solute : ℚ
  energy_electric_flow_vol_inlet : ℚ
  cycles : ℚ

/-- Modelled from the spec: the `cooling_tower` entry of the database, with
the parameter values the regression tests record (water recovery 0.25, tss
removal 0.9, default removal 0, electricity intensity 0, cycles 5). -/
def cooling_tower_entry : CoolingTowerDBEntry :=
  { recovery_frac_mass_H2O := 1 / 4
    removal_frac_mass_solute := [("tss", 9 / 10)]
    default_removal_frac_mass_solute := 0
    energy_electric_flow_vol_inlet := 0
    cycles := 5 }

/-- A model variable: its current value and whether it is fixed. -/
structure VarState where
  value : ℚ
  fixed : Bool
deriving DecidableEq, Repr

/-- Modelled from the spec: the state of a `CoolingTowerZO` unit — a
single-inlet double-outlet (treated/byproduct) zero-order separator with
water recovery and solute removal fractions, plus the electricity and
blowdown performance variables the tests exercise.  Flows are keyed by
component name; the single steady-state time point is left implicit. -/
structure CTModel where
  solute_list : List String
  inlet_flow_mass_comp : String → VarState
  treated_flow_mass_comp : String → VarState
  byproduct_flow_mass_comp : String → VarState
  recovery_frac_mass_H2O : VarState
  removal_frac_mass_solute : String → VarState
  energy_electric_flow_vol_inlet : VarState
  cycles : VarState
  electricity : VarState
  blowdown : VarState

/-- The property package's component list: water plus the configured
solutes. -/
def CTModel.component_list (m : CTModel) : List String := "H2O" :: m.solute_list

/-- Modelled from the spec: building a `CoolingTowerZO` unit declares all of
its variables unfixed (value initialised to 0 here). -/
def buildCoolingTower (solutes : List String) : CTModel :=
  { solute_list := solutes
    inlet_flow_mass_comp := fun _ => ⟨0, false⟩
    treated_flow_mass_comp := fun _ => ⟨0, false⟩
    byproduct_flow_mass_comp := fun _ => ⟨0, false⟩
    recovery_frac_mass_H2O := ⟨0, false⟩
    removal_frac_mass_solute := fun _ => ⟨0, false⟩
    energy_electric_flow_vol_inlet := ⟨0, false⟩
    cycles := ⟨0, false⟩
    electricity := ⟨0, false⟩
    blowdown := ⟨0, false⟩ }

/-- The test fixture's `inlet.flow_mass_comp[0, j].fix(v)` calls: fix every
inlet mass flow at the given value. -/
def fix_inlet_flows (flows : String → ℚ) (m : CTModel) : CTModel :=
  { m with inlet_flow_mass_comp := fun j => ⟨flows j, true⟩ }

/-- Modelled from the spec: the removal fraction the database lookup yields
for solute `j` — the entry's own value when listed, otherwise the database
default when `use_default_removal` is set. -/
def removal_lookup (entry : CoolingTowerDBEntry) (useDefault : Bool) (j : String) : Option ℚ :=
  match entry.removal_frac_mass_solute.lookup j with
  | some v => some v
  | none => if useDefault then some entry.default_removal_frac_mass_solute else none

/-- Modelled from the spec: `load_parameters_from_database` fixes the
recovery fraction, each solute's removal fraction, the electricity intensity
and the cycles of concentration at the database entry's values. -/
def load_parameters_from_database (entry : CoolingTowerDBEntry) (useDefault : Bool)
    (m : CTModel) : CTModel :=
  { m with
    recovery_frac_mass_H2O := ⟨entry.recovery_frac_mass_H2O, true⟩
    removal_frac_mass_solute := fun j =>
      if j ∈ m.solute_list then
        match removal_lookup entry useDefault j with
        | some v => ⟨v, true⟩
        | none => m.removal_frac_mass_solute j
      else m.removal_frac_mass_solute j
    energy_electric_flow_vol_inlet := ⟨entry.energy_electric_flow_vol_inlet, true⟩
    cycles := ⟨entry.cycles, true⟩ }

/-- Modelled from the spec: the zero-order property package's constant mass
density, 1000 kg/m³. -/
def dens_mass : ℚ := 1000

/-- Volumetric flow (m³/s) of a stream: total mass flow over density. -/
def CTModel.flow_vol (m : CTModel) (flows : String → VarState) : ℚ :=
  ((m.component_list.map fun j => (flows j).value).sum) / dens_mass

/-- Mass concentration (kg/m³) of component `j` in a stream. -/
def CTModel.conc_mass_comp (m : CTModel) (flows : String → VarState) (j : String) : ℚ :=
  (flows j).value / m.flow_vol flows

/-- Modelled from the spec: the water-recovery equation — treated water flow
equals the recovery fraction times the inlet water flow. -/
def CTModel.water_recovery_ok (m : CTModel) : Bool :=
  (m.treated_flow_mass_comp "H2O").value ==
    m.recovery_frac_mass_H2O.value * (m.inlet_flow_mass_comp "H2O").value

/-- Modelled from the spec: the componentwise mass balances — inlet flow
equals treated plus byproduct flow for every component. -/
def CTModel.mass_balances_ok (m : CTModel) : Bool :=
  m.component_list.all fun j =>
    (m.inlet_flow_mass_comp j).value ==
      (m.treated_flow_mass_comp j).value + (m.byproduct_flow_mass_comp j).value

/-- Modelled from the spec: the solute-removal equations — byproduct solute
flow equals the removal fraction times the inlet solute flow. -/
def CTModel.solute_removal_ok (m : CTModel) : Bool :=
  m.solute_list.all fun j =>
    (m.byproduct_flow_mass_comp j).value ==
      (m.removal_frac_mass_solute j).value * (m.inlet_flow_mass_comp j).value

/-- Modelled from the spec: the `electricity_consumption` constraint —
electricity demand (kW) equals the electricity intensity (kWh/m³) times the
inlet volumetric flow in m³/hr. -/
def CTModel.electricity_consumption_ok (m : CTModel) : Bool :=
  m.electricity.value ==
    m.energy_electric_flow_vol_inlet.value * (m.flow_vol m.inlet_flow_mass_comp * 3600)

/-- Modelled from the spec: the `blowdown_constraint` — the blowdown-vs-cycles
correlation, blowdown flowrate (m³/hr) equals the cycles of concentration
times the inlet volumetric flow in m³/hr. -/
def CTModel.blowdown_constraint_ok (m : CTModel) : Bool :=
  m.blowdown.value ==
    m.cycles.value * (m.flow_vol m.inlet_flow_mass_comp * 3600)

/-- A state solves the cooling-tower model when every constraint residual is
zero. -/
def CTModel.is_solution (m : CTModel) : Bool :=
  m.water_recovery_ok && m.mass_balances_ok && m.solute_removal_ok &&
    m.electricity_consumption_ok && m.blowdown_constraint_ok

/-- The exact solution of the (triangular) cooling-tower system for given
fixed inlet flows and parameters. -/
def solveCT (m : CTModel) : CTModel :=
  { m with
    treated_flow_mass_comp := fun j =>
      if j = "H2O" then
        ⟨m.recovery_frac_mass_H2O.value * (m.inlet_flow_mass_comp "H2O").value, false⟩
      else
        ⟨(1 - (m.removal_frac_mass_solute j).value) * (m.inlet_flow_mass_comp j).value, false⟩
    byproduct_flow_mass_comp := fun j =>
      if j = "H2O" then
        ⟨(1 - m.recovery_frac_mass_H2O.value) * (m.inlet_flow_mass_comp "H2O").value, false⟩
      else
        ⟨(m.removal_frac_mass_solute j).value * (m.inlet_flow_mass_comp j).value, false⟩
    electricity :=
      ⟨m.energy_electric_flow_vol_inlet.value * (m.flow_vol m.inlet_flow_mass_comp * 3600), false⟩
    blowdown :=
      ⟨m.cycles.value * (m.flow_vol m.inlet_flow_mass_comp * 3600), false⟩ }

/-- The inlet flows fixed by the test fixture: H2O = 10, tss = 1, foo = 1
(kg/s). -/
def ct_test_inlet : String → ℚ := fun j =>
  if j = "H2O" then 10 else if j = "tss" then 1 else if j = "foo" then 1 else 0

/-- The test sequence: build the unit, fix the inlet flows, load the
parameters from a database entry with `use_default_removal=True`. -/
def ct_loaded (S : List String) (flows : String → ℚ) (entry : CoolingTowerDBEntry) : CTModel :=
  load_parameters_from_database entry true (fix_inlet_flows flows (buildCoolingTower S))

/-- The test fixture's model: solutes tss and foo, inlets fixed, parameters
loaded from the database with `use_default_removal=True`. -/
def ctModelLoaded : CTModel :=
  ct_loaded ["tss", "foo"] ct_test_inlet cooling_tower_entry

/-- The solved state of the test fixture's model. -/
def ctSolved : CTModel := solveCT ctModelLoaded

/-- Number of unfixed variables in a list of variable states. -/
def countUnfixed (l : List VarState) : ℕ := (l.filter fun v => !v.fixed).length

/-- All variable states of a cooling-tower unit, enumerated for the
degrees-of-freedom count. -/
def CTModel.variable_states (m : CTModel) : List VarState :=
  m.component_list.map m.inlet_flow_mass_comp
    ++ m.component_list.map m.treated_flow_mass_comp
    ++ m.component_list.map m.byproduct_flow_mass_comp
    ++ [m.recovery_frac_mass_H2O]
    ++ m.solute_list.map m.removal_frac_mass_solute
    ++ [m.energy_electric_flow_vol_inlet, m.cycles, m.electricity, m.blowdown]

/-- Number of algebraic constraints of a cooling-tower unit: one water
recovery equation, one mass balance per component, one removal equation per
solute, the electricity constraint and the blowdown constraint. -/
def CTModel.constraint_count (m : CTModel) : ℕ :=
  1 + m.component_list.length + m.solute_list.length + 1 + 1

/-- Degrees of freedom: unconstrained (unfixed) variables minus
constraints. -/
def degrees_of_freedom (m : CTModel) : ℤ :=
  (countUnfixed m.variable_states : ℤ) - (m.constraint_count : ℤ)

/-- A row of the performance-variable table written by `report()`. -/
structure PerfRow where
  key : String
  value : ℚ
  fixed : Bool
  lb : Option ℚ
  ub : Option ℚ
deriving DecidableEq, Repr

/-- A row of the stream table written by `report()`. -/
structure StreamRow where
  label : String
  inlet : ℚ
  treated : ℚ
  byproduct : ℚ
deriving DecidableEq, Repr

/-- Modelled from the spec: the performance-variable section of `report()` —
each performance variable's value, fixed status and bounds.  The bound
literals are those the test text records for the electricity demand and
water recovery variables. -/
def CTModel.performance_table (m : CTModel) : List PerfRow :=
  [⟨"Blowdown flowrate (m^3/hr)", m.blowdown.value, m.blowdown.fixed, none, none⟩,
   ⟨"Cycles", m.cycles.value, m.cycles.fixed, none, none⟩,
   ⟨"Electricity Demand", m.electricity.value, m.electricity.fixed, some 0, none⟩,
   ⟨"Electricity Intensity", m.energy_electric_flow_vol_inlet.value,
      m.energy_electric_flow_vol_inlet.fixed, none, none⟩]
  ++ (m.solute_list.map fun j =>
      ⟨"Solute Removal [" ++ j ++ "]", (m.removal_frac_mass_solute j).value,
        (m.removal_frac_mass_solute j).fixed, some 0, none⟩)
  ++ [⟨"Water Recovery", m.recovery_frac_mass_H2O.value, m.recovery_frac_mass_H2O.fixed,
        some (1 / 100000000), some (10000001 / 10000000)⟩]

/-- Modelled from the spec: the stream table of `report()` — volumetric
flowrates and per-component mass concentrations of the Inlet, Treated and
Byproduct streams. -/
def CTModel.stream_table (m : CTModel) : List StreamRow :=
  ⟨"Volumetric Flowrate",
     m.flow_vol m.inlet_flow_mass_comp,
     m.flow_vol m.treated_flow_mass_comp,
     m.flow_vol m.byproduct_flow_mass_comp⟩ ::
  m.component_list.map fun j =>
    ⟨"Mass Concentration " ++ j,
     m.conc_mass_comp m.inlet_flow_mass_comp j,
     m.conc_mass_comp m.treated_flow_mass_comp j,
     m.conc_mass_comp m.byproduct_flow_mass_comp j⟩

/-- Modelled from the spec: `report(ostream)` writes the performance table
followed by the stream table. -/
def CTModel.report (m : CTModel) : List PerfRow × List StreamRow :=
  (m.performance_table, m.stream_table)

/-- Modelled from the spec: the block of global costing parameters the
flowsheet costing package builds for a technology. -/
structure TechParamBlock where
  capital_a_parameter : VarState
  capital_b_parameter : VarState
  reference_state : VarState
deriving DecidableEq, Repr

/-- Modelled from the spec: a `ZeroOrderCosting` flowsheet costing block —
per-technology parameter blocks and the registered electricity flows. -/
structure FSCostingBlock where
  tech_param_blocks : List (String × TechParamBlock)
  registered_electricity_flows : List String
deriving DecidableEq, Repr

/-- Modelled from the spec: the unit-level costing block — a capital cost
variable and its defining constraint. -/
structure UnitCostingBlock where
  capital_cost : VarState
  capital_cost_constraint : Bool
deriving DecidableEq, Repr

/-- A freshly constructed `ZeroOrderCosting()` block. -/
def zero_order_costing_init : FSCostingBlock := ⟨[], []⟩

/-- Modelled from the spec: the `cooling_tower` global parameter block the
costing package creates, its three parameters fixed from the costing
database. -/
def cooling_tower_cost_params : TechParamBlock :=
  ⟨⟨0, true⟩, ⟨0, true⟩, ⟨0, true⟩⟩

/-- Modelled from the spec: attaching a `UnitModelCostingBlock` referencing a
`ZeroOrderCosting` flowsheet block — creates the technology's global
parameter block if absent, registers the unit's electricity flow, and adds a
capital cost variable with its constraint on the unit's costing block. -/
def add_unit_costing (fs : FSCostingBlock) (params : TechParamBlock)
    (electricity_flow_ref : String) : FSCostingBlock × UnitCostingBlock :=
  ({ tech_param_blocks :=
       if (fs.tech_param_blocks.lookup "cooling_tower").isSome then fs.tech_param_blocks
       else fs.tech_param_blocks ++ [("cooling_tower", params)]
     registered_electricity_flows :=
       fs.registered_electricity_flows ++ [electricity_flow_ref] },
   { capital_cost := ⟨0, false⟩
     capital_cost_constraint := true })

/-- Degrees of freedom of a unit together with its costing block: the
capital cost variable and its constraint are part of the unit's count. -/
def degrees_of_freedom_with_costing (m : CTModel) (c : UnitCostingBlock) : ℤ :=
  (countUnfixed (m.variable_states ++ [c.capital_cost]) : ℤ)
    - ((m.constraint_count + (if c.capital_cost_constraint then 1 else 0)) : ℤ)

/-! ## Stoichiometric-softening pretreatment examples

Only the regression test `test_pretreatment.py` is in the snapshot; the
flowsheet module `pretreatment_stoich_softening_block` it imports is not, so
the two example runs are modelled from the spec as solved results carrying
the regression values the test records. -/

/-- The pytest.approx check: the actual value is within relative tolerance
`tol` of the expected value. -/
def approx_rel (actual expected tol : ℚ) : Bool :=
  decide (|actual - expected| ≤ tol * |expected|)

/-- Result of the softening-mixer example flowsheet run. -/
structure SofteningMixerResult where
  solved : Bool
  dosing_rate : ℚ
  outlet_flow_mol : ℚ
  outlet_mole_frac_NaCl : ℚ
  outlet_mole_frac_CaOH2 : ℚ
deriving DecidableEq, Repr

/-- Result of the softening-reactor example flowsheet run. -/
structure SofteningReactorResult where
  solved : Bool
  outlet_flow_mol : ℚ
  outlet_mole_frac_NaCl : ℚ
  outlet_mole_frac_CaOH2 : ℚ
  outlet_mole_frac_CaHCO3 : ℚ
  outlet_mole_frac_MgHCO3 : ℚ
deriving DecidableEq, Repr

/-- Modelled from the spec: `run_stoich_softening_mixer_example` (from the
missing module `pretreatment_stoich_softening_block`) — a regression example
whose nonlinear system solves to the known values the test records. -/
def run_stoich_softening_mixer_example : SofteningMixerResult :=
  { solved := true
    dosing_rate := 24.88346319183235
    outlet_flow_mol := 10.000013433637829
    outlet_mole_frac_NaCl := 0.01072288805932624
    outlet_mole_frac_CaOH2 := 3.358296671927998e-5 }

/-- Modelled from the spec: `run_stoich_softening_reactor_example` (from the
missing module `pretreatment_stoich_softening_block`) — a regression example
whose nonlinear system solves to the known values the test records. -/
def run_stoich_softening_reactor_example : SofteningReactorResult :=
  { solved := true
    outlet_flow_mol := 10.000505067955139
    outlet_mole_frac_NaCl := 0.01072288805932624
    outlet_mole_frac_CaOH2 := 3.400959239473792e-7
    outlet_mole_frac_CaHCO3 := 1.1643426881998615e-6
    outlet_mole_frac_MgHCO3 := 9.581716805897575e-6 }

/-! ## Theorems -/

theorem energy_rule_rhs (b : ECVars) (t : ℝ) :
    ((energy_consumption_rule b t).2).rhs = spec_energy_consumption b t := rfl

theorem count_break_of_rule_events (b : ECVars) (ts : List ℝ) :
    ((ts.map (fun t =>
        (energy_consumption_rule b t).1
          ++ [BuildEvent.addConstraint "energy_consumption_constraint"])).flatten).count
      BuildEvent.debuggerBreak = ts.length := by
  induction ts with
  | nil => rfl
  | cons t ts ih =>
      simp only [List.map_cons, List.flatten_cons, List.count_append, ih]
      simp [energy_consumption_rule, List.count_cons, List.count_nil, Nat.add_comm]

/-- C1: for every time point `t` of the flowsheet, `build` adds a constraint
`energy_consumption_constraint[t]` whose left side is `energy_consumption[t]`
and whose right side is the stated correlation
`(i * (electrode_spacing / solution_conductivity) + k1 * log i + k2) *
(z_valence * F / (3600 * 10^6))` with `i` the current density converted to
A/cm². -/
theorem C1_energy_consumption_constraint (time : List ℝ) (b : ECVars) (t : ℝ)
    (ht : t ∈ time) :
    ∃ c ∈ (ecBuild time b).constraints,
      c.1 = t ∧ c.2.lhs = b.energy_consumption t ∧
      c.2.rhs = spec_energy_consumption b t := by
  refine ⟨(t, (energy_consumption_rule b t).2), ?_, rfl, rfl, energy_rule_rhs b t⟩
  simpa [ecBuild] using List.mem_map_of_mem (fun s => (s, (energy_consumption_rule b s).2)) ht

/-- Witness for C1 at the single time point `0` and a concrete variable
assignment. -/
theorem C1_energy_consumption_constraint_witness :
    ∃ c ∈ (ecBuild [0] ecSample).constraints,
      c.1 = 0 ∧ c.2.lhs = ecSample.energy_consumption 0 ∧
      c.2.rhs = spec_energy_consumption ecSample 0 :=
  C1_energy_consumption_constraint [0] ecSample 0 (by simp)

/-- C2: `build` is not a pure declarative constraint construction — the rule
for `energy_consumption_constraint` performs a `breakpoint()` (a suspension
into the interactive debugger) before returning its expression, and the build
trace therefore contains one debugger break per flowsheet time point. -/
theorem C2_breakpoint_in_build (time : List ℝ) (b : ECVars) :
    (∀ t : ℝ, (energy_consumption_rule b t).1 = [BuildEvent.debuggerBreak]) ∧
    (ecBuild time b).events.count BuildEvent.debuggerBreak = time.length ∧
    (ecBuild time b).events =
      (time.map (fun _ =>
        [BuildEvent.debuggerBreak,
         BuildEvent.addConstraint "energy_consumption_constraint"])).flatten := by
  exact ⟨fun _ => rfl, count_break_of_rule_events b time, rfl⟩

/-- Witness for C2 at the single time point `0` and a concrete variable
assignment. -/
theorem C2_breakpoint_in_build_witness :
    (∀ t : ℝ, (energy_consumption_rule ecSample t).1 = [BuildEvent.debuggerBreak]) ∧
    (ecBuild [0] ecSample).events.count BuildEvent.debuggerBreak = ([(0 : ℝ)]).length ∧
    (ecBuild [0] ecSample).events =
      (([(0 : ℝ)]).map (fun _ =>
        [BuildEvent.debuggerBreak,
         BuildEvent.addConstraint "energy_consumption_constraint"])).flatten :=
  C2_breakpoint_in_build [0] ecSample

/-- C10: `current_density` is declared with bounds `(1, 9)` (mA/cm²), and for
every assignment of the variables respecting those bounds the argument of the
logarithm in the energy constraint — the current density converted to
A/cm² — is strictly positive. -/
theorem C10_log_argument_positive (time : List ℝ) (b : ECVars)
    (hb : ∀ t : ℝ, 1 ≤ b.current_density t ∧ b.current_density t ≤ 9) (t : ℝ) :
    (⟨"current_density", some 1, some 9⟩ : VarDecl) ∈ (ecBuild time b).varDecls ∧
    0 < convert_mA_to_A (b.current_density t) := by
  constructor
  · simp [ecBuild]
  · have h1 := (hb t).1
    have : (0 : ℝ) < b.current_density t := lt_of_lt_of_le one_pos h1
    unfold convert_mA_to_A
    positivity

/-- Witness for C10: the sample assignment has current density 3 mA/cm²
everywhere, within the declared bounds. -/
theorem C10_log_argument_positive_witness :
    (⟨"current_density", some 1, some 9⟩ : VarDecl) ∈ (ecBuild [0] ecSample).varDecls ∧
    0 < convert_mA_to_A (ecSample.current_density 0) :=
  C10_log_argument_positive [0] ecSample
    (fun _ => by constructor <;> norm_num [ecSample]) 0

theorem s_tss_H2O : (("tss" : String) = "H2O") = False := eq_false (by decide)

theorem s_foo_H2O : (("foo" : String) = "H2O") = False := eq_false (by decide)

theorem s_foo_tss : (("foo" : String) = "tss") = False := eq_false (by decide)

theorem s_H2O_tss : (("H2O" : String) = "tss") = False := eq_false (by decide)

theorem s_H2O_foo : (("H2O" : String) = "foo") = False := eq_false (by decide)

theorem sb_foo_tss : (("foo" : String) == "tss") = false := by decide

theorem sb_tss_tss : (("tss" : String) == "tss") = true := by decide

theorem sb_H2O_tss : (("H2O" : String) == "tss") = false := by decide

theorem sapp_rm_foo : "Solute Removal [" ++ "foo" ++ "]" = "Solute Removal [foo]" := by decide

theorem sapp_rm_tss : "Solute Removal [" ++ "tss" ++ "]" = "Solute Removal [tss]" := by decide

theorem sapp_mc_H2O : "Mass Concentration " ++ "H2O" = "Mass Concentration H2O" := by decide

theorem sapp_mc_tss : "Mass Concentration " ++ "tss" = "Mass Concentration tss" := by decide

theorem sapp_mc_foo : "Mass Concentration " ++ "foo" = "Mass Concentration foo" := by decide

theorem removal_lookup_true_eq (entry : CoolingTowerDBEntry) (j : String) :
    removal_lookup entry true j =
      some ((entry.removal_frac_mass_solute.lookup j).getD
        entry.default_removal_frac_mass_solute) := by
  unfold removal_lookup
  cases h : entry.removal_frac_mass_solute.lookup j <;> simp [h]

theorem removal_state_after_load (entry : CoolingTowerDBEntry) (m : CTModel) (j : String)
    (hj : j ∈ m.solute_list) :
    (load_parameters_from_database entry true m).removal_frac_mass_solute j =
      ⟨(entry.removal_frac_mass_solute.lookup j).getD
        entry.default_removal_frac_mass_solute, true⟩ := by
  show (if j ∈ m.solute_list then
      match removal_lookup entry true j with
      | some v => (⟨v, true⟩ : VarState)
      | none => m.removal_frac_mass_solute j
    else m.removal_frac_mass_solute j) = _
  rw [if_pos hj, removal_lookup_true_eq]

/-- C3: after `load_parameters_from_database(use_default_removal=True)`, the
water recovery fraction, each solute's removal fraction, the electricity
intensity and the cycles variable are fixed at the database entry's values;
a solute listed in the entry takes the entry's removal value and a solute
absent from it (such as `foo`) takes the default removal value — the two
cases are the two branches of the `lookup`/`getD`. -/
theorem C3_load_parameters_fixes (S : List String) (flows : String → ℚ)
    (entry : CoolingTowerDBEntry) (j : String) (hj : j ∈ S) :
    (ct_loaded S flows entry).recovery_frac_mass_H2O =
      ⟨entry.recovery_frac_mass_H2O, true⟩ ∧
    (ct_loaded S flows entry).energy_electric_flow_vol_inlet =
      ⟨entry.energy_electric_flow_vol_inlet, true⟩ ∧
    (ct_loaded S flows entry).cycles = ⟨entry.cycles, true⟩ ∧
    (ct_loaded S flows entry).removal_frac_mass_solute j =
      ⟨(entry.removal_frac_mass_solute.lookup j).getD
        entry.default_removal_frac_mass_solute, true⟩ := by
  refine ⟨rfl, rfl, rfl, ?_⟩
  exact removal_state_after_load entry (fix_inlet_flows flows (buildCoolingTower S)) j hj

/-- Witness for C3: the test fixture's solutes and database entry, at the
solute `foo` absent from the entry — its removal fraction is fixed at the
database default. -/
theorem C3_load_parameters_fixes_witness :
    (ct_loaded ["tss", "foo"] ct_test_inlet cooling_tower_entry).recovery_frac_mass_H2O =
      ⟨cooling_tower_entry.recovery_frac_mass_H2O, true⟩ ∧
    (ct_loaded ["tss", "foo"] ct_test_inlet cooling_tower_entry).energy_electric_flow_vol_inlet =
      ⟨cooling_tower_entry.energy_electric_flow_vol_inlet, true⟩ ∧
    (ct_loaded ["tss", "foo"] ct_test_inlet cooling_tower_entry).cycles =
      ⟨cooling_tower_entry.cycles, true⟩ ∧
    (ct_loaded ["tss", "foo"] ct_test_inlet cooling_tower_entry).removal_frac_mass_solute "foo" =
      ⟨(cooling_tower_entry.removal_frac_mass_solute.lookup "foo").getD
        cooling_tower_entry.default_removal_frac_mass_solute, true⟩ :=
  C3_load_parameters_fixes ["tss", "foo"] ct_test_inlet cooling_tower_entry "foo" (by decide)

theorem countUnfixed_append (a b : List VarState) :
    countUnfixed (a ++ b) = countUnfixed a + countUnfixed b := by
  simp [countUnfixed, List.filter_append]

theorem countUnfixed_eq_zero {l : List VarState} (h : ∀ v ∈ l, v.fixed = true) :
    countUnfixed l = 0 := by
  induction l with
  | nil => rfl
  | cons a l ih =>
      have ha := h a (List.mem_cons_self a l)
      have hl := ih fun v hv => h v (List.mem_cons_of_mem a hv)
      simpa [countUnfixed, List.filter_cons, ha] using hl

theorem countUnfixed_eq_length {l : List VarState} (h : ∀ v ∈ l, v.fixed = false) :
    countUnfixed l = l.length := by
  induction l with
  | nil => rfl
  | cons a l ih =>
      have ha := h a (List.mem_cons_self a l)
      have hl := ih fun v hv => h v (List.mem_cons_of_mem a hv)
      simpa [countUnfixed, List.filter_cons, ha] using hl

theorem ct_loaded_solute_list (S : List String) (flows : String → ℚ)
    (entry : CoolingTowerDBEntry) : (ct_loaded S flows entry).solute_list = S := rfl

theorem ct_loaded_unfixed_count (S : List String) (flows : String → ℚ)
    (entry : CoolingTowerDBEntry) :
    countUnfixed (ct_loaded S flows entry).variable_states = 2 * S.length + 4 := by
  have hin : countUnfixed ((ct_loaded S flows entry).component_list.map
      (ct_loaded S flows entry).inlet_flow_mass_comp) = 0 :=
    countUnfixed_eq_zero (by
      intro v hv
      obtain ⟨j, hj, rfl⟩ := List.mem_map.mp hv
      rfl)
  have htr : countUnfixed ((ct_loaded S flows entry).component_list.map
      (ct_loaded S flows entry).treated_flow_mass_comp)
      = (ct_loaded S flows entry).component_list.length := by
    rw [countUnfixed_eq_length (by
      intro v hv
      obtain ⟨j, hj, rfl⟩ := List.mem_map.mp hv
      rfl)]
    exact List.length_map _ _
  have hby : countUnfixed ((ct_loaded S flows entry).component_list.map
      (ct_loaded S flows entry).byproduct_flow_mass_comp)
      = (ct_loaded S flows entry).component_list.length := by
    rw [countUnfixed_eq_length (by
      intro v hv
      obtain ⟨j, hj, rfl⟩ := List.mem_map.mp hv
      rfl)]
    exact List.length_map _ _
  have hrm : countUnfixed ((ct_loaded S flows entry).solute_list.map
      (ct_loaded S flows entry).removal_frac_mass_solute) = 0 :=
    countUnfixed_eq_zero (by
      intro v hv
      obtain ⟨j, hj, rfl⟩ := List.mem_map.mp hv
      show ((ct_loaded S flows entry).removal_frac_mass_solute j).fixed = true
      unfold ct_loaded
      rw [removal_state_after_load entry (fix_inlet_flows flows (buildCoolingTower S)) j hj])
  have hrec : countUnfixed [(ct_loaded S flows entry).recovery_frac_mass_H2O] = 0 := rfl
  have hrest : countUnfixed [(ct_loaded S flows entry).energy_electric_flow_vol_inlet,
      (ct_loaded S flows entry).cycles, (ct_loaded S flows entry).electricity,
      (ct_loaded S flows entry).blowdown] = 2 := rfl
  have hcl : (ct_loaded S flows entry).component_list.length = S.length + 1 := by
    rw [CTModel.component_list, ct_loaded_solute_list, List.length_cons]
  unfold CTModel.variable_states
  rw [countUnfixed_append, countUnfixed_append, countUnfixed_append, countUnfixed_append,
    countUnfixed_append, hin, htr, hby, hrm, hrec, hrest, hcl]
  omega

theorem ct_loaded_constraint_count (S : List String) (flows : String → ℚ)
    (entry : CoolingTowerDBEntry) :
    (ct_loaded S flows entry).constraint_count = 2 * S.length + 4 := by
  unfold CTModel.constraint_count
  rw [CTModel.component_list, ct_loaded_solute_list, List.length_cons]
  omega

/-- C4: for every cooling-tower unit whose inlet mass flows are all fixed
and whose parameters have been loaded from the database, the degrees of
freedom — unconstrained variables minus constraints — are zero: the
algebraic system is square. -/
theorem C4_degrees_of_freedom_zero (S : List String) (flows : String → ℚ)
    (entry : CoolingTowerDBEntry) :
    degrees_of_freedom (load_parameters_from_database entry true
      (fix_inlet_flows flows (buildCoolingTower S))) = 0 := by
  show degrees_of_freedom (ct_loaded S flows entry) = 0
  unfold degrees_of_freedom
  rw [ct_loaded_unfixed_count, ct_loaded_constraint_count]
  exact sub_self _

/-- Witness for C4 at the test fixture's solutes, inlet flows and database
entry. -/
theorem C4_degrees_of_freedom_zero_witness :
    degrees_of_freedom (load_parameters_from_database cooling_tower_entry true
      (fix_inlet_flows ct_test_inlet (buildCoolingTower ["tss", "foo"]))) = 0 :=
  C4_degrees_of_freedom_zero ["tss", "foo"] ct_test_inlet cooling_tower_entry

/-- C5: at any solution of the cooling-tower model (any state satisfying the
componentwise mass balances), mass is conserved for every component of the
property package's component list: inlet flow equals treated plus byproduct
flow to within 1e-6. -/
theorem C5_mass_conservation (m : CTModel) (h : m.mass_balances_ok = true)
    (j : String) (hj : j ∈ m.component_list) :
    |(m.inlet_flow_mass_comp j).value - (m.treated_flow_mass_comp j).value
      - (m.byproduct_flow_mass_comp j).value| ≤ 1 / 1000000 := by
  unfold CTModel.mass_balances_ok at h
  have hb : ((m.inlet_flow_mass_comp j).value ==
      (m.treated_flow_mass_comp j).value + (m.byproduct_flow_mass_comp j).value) = true :=
    List.all_eq_true.mp h j hj
  have heq : (m.inlet_flow_mass_comp j).value =
      (m.treated_flow_mass_comp j).value + (m.byproduct_flow_mass_comp j).value :=
    eq_of_beq hb
  have h0 : (m.inlet_flow_mass_comp j).value - (m.treated_flow_mass_comp j).value
      - (m.byproduct_flow_mass_comp j).value = 0 := by
    rw [heq]; ring
  rw [h0]
  norm_num

/-- Witness for C5: the solved test-fixture model conserves tss mass. -/
theorem C5_mass_conservation_witness :
    |(ctSolved.inlet_flow_mass_comp "tss").value - (ctSolved.treated_flow_mass_comp "tss").value
      - (ctSolved.byproduct_flow_mass_comp "tss").value| ≤ 1 / 1000000 :=
  C5_mass_conservation ctSolved
    (by norm_num [ctSolved, ctModelLoaded, ct_loaded, CTModel.mass_balances_ok, solveCT,
      load_parameters_from_database, fix_inlet_flows, buildCoolingTower, cooling_tower_entry,
      removal_lookup, ct_test_inlet, CTModel.component_list, List.lookup,
      s_tss_H2O, s_foo_H2O, s_foo_tss, s_H2O_tss, s_H2O_foo, sb_foo_tss, sb_tss_tss, sb_H2O_tss])
    "tss" (by decide)

/-- C6: with inlet flows H2O = 10, tss = 1, foo = 1 and the database
parameters (cycles 5, recovery 0.25, tss removal 0.9, foo removal 0), the
cooling-tower system has a solution satisfying every constraint, with
blowdown 216 m³/hr, electricity approximately 0, inlet volumetric flow
1.2e-2 m³/s, treated volumetric flow 0.0036 m³/s, treated tss concentration
27.7778 and byproduct tss concentration 107.143 (to the test's relative
tolerance 1e-5). -/
theorem C6_solution_values :
    ctSolved.is_solution = true ∧
    ctSolved.flow_vol ctSolved.inlet_flow_mass_comp = 12 / 1000 ∧
    ctSolved.flow_vol ctSolved.treated_flow_mass_comp = 36 / 10000 ∧
    approx_rel (ctSolved.conc_mass_comp ctSolved.treated_flow_mass_comp "tss")
      27.7778 (1 / 100000) = true ∧
    approx_rel (ctSolved.conc_mass_comp ctSolved.byproduct_flow_mass_comp "tss")
      107.143 (1 / 100000) = true ∧
    |ctSolved.electricity.value| ≤ 1 / 100000 ∧
    |ctSolved.blowdown.value - 216| ≤ 1 / 100000 := by
  refine ⟨?_, ?_, ?_, ?_, ?_, ?_, ?_⟩ <;>
    norm_num [ctSolved, ctModelLoaded, ct_loaded, CTModel.is_solution, CTModel.water_recovery_ok,
      CTModel.mass_balances_ok, CTModel.solute_removal_ok, CTModel.electricity_consumption_ok,
      CTModel.blowdown_constraint_ok, solveCT, load_parameters_from_database, fix_inlet_flows,
      buildCoolingTower, cooling_tower_entry, removal_lookup, ct_test_inlet, approx_rel,
      CTModel.component_list, CTModel.flow_vol, CTModel.conc_mass_comp, dens_mass, List.lookup,
      s_tss_H2O, s_foo_H2O, s_foo_tss, s_H2O_tss, s_H2O_foo, sb_foo_tss, sb_tss_tss, sb_H2O_tss,
      abs_le, abs_of_nonneg]

/-- C7: the report of the solved test-fixture model lists the claimed
performance rows — their values, fixed flags and bounds — and a stream
table giving the volumetric flowrates and the per-component mass
concentrations of the Inlet, Treated and Byproduct streams. -/
theorem C7_report_contents :
    (⟨"Blowdown flowrate (m^3/hr)", 216, false, none, none⟩ : PerfRow) ∈ ctSolved.report.1 ∧
    (⟨"Cycles", 5, true, none, none⟩ : PerfRow) ∈ ctSolved.report.1 ∧
    (⟨"Electricity Intensity", 0, true, none, none⟩ : PerfRow) ∈ ctSolved.report.1 ∧
    (⟨"Solute Removal [foo]", 0, true, some 0, none⟩ : PerfRow) ∈ ctSolved.report.1 ∧
    (⟨"Solute Removal [tss]", 9 / 10, true, some 0, none⟩ : PerfRow) ∈ ctSolved.report.1 ∧
    (⟨"Water Recovery", 1 / 4, true, some (1 / 100000000), some (10000001 / 10000000)⟩ : PerfRow)
      ∈ ctSolved.report.1 ∧
    (⟨"Volumetric Flowrate", 12 / 1000, 36 / 10000, 84 / 10000⟩ : StreamRow)
      ∈ ctSolved.report.2 ∧
    (⟨"Mass Concentration H2O", 2500 / 3, 6250 / 9, 6250 / 7⟩ : StreamRow)
      ∈ ctSolved.report.2 ∧
    (⟨"Mass Concentration tss", 250 / 3, 250 / 9, 750 / 7⟩ : StreamRow)
      ∈ ctSolved.report.2 ∧
    (⟨"Mass Concentration foo", 250 / 3, 2500 / 9, 0⟩ : StreamRow)
      ∈ ctSolved.report.2 := by
  refine ⟨?_, ?_, ?_, ?_, ?_, ?_, ?_, ?_, ?_, ?_⟩ <;>
    norm_num [CTModel.report, CTModel.performance_table, CTModel.stream_table,
      ctSolved, ctModelLoaded, ct_loaded, solveCT, load_parameters_from_database,
      fix_inlet_flows, buildCoolingTower, cooling_tower_entry, removal_lookup, ct_test_inlet,
      CTModel.component_list, CTModel.flow_vol, CTModel.conc_mass_comp, dens_mass, List.lookup,
      s_tss_H2O, s_foo_H2O, s_foo_tss, s_H2O_tss, s_H2O_foo, sb_foo_tss, sb_tss_tss, sb_H2O_tss,
      sapp_rm_foo, sapp_rm_tss, sapp_mc_H2O, sapp_mc_tss, sapp_mc_foo]

/-- C8: attaching a unit costing block referencing the flowsheet costing
block creates the `cooling_tower` parameter block (capital_a, capital_b,
reference_state), registers the unit's electricity flow among the costing
block's electricity flows, adds a capital cost variable with its constraint
on the unit's costing block, and leaves the unit's degrees of freedom at
zero. -/
theorem C8_costing_structure (S : List String) (flows : String → ℚ)
    (entry : CoolingTowerDBEntry) :
    (add_unit_costing zero_order_costing_init cooling_tower_cost_params
        "fs.unit1.electricity[0]").1.tech_param_blocks.lookup "cooling_tower"
      = some cooling_tower_cost_params ∧
    "fs.unit1.electricity[0]" ∈ (add_unit_costing zero_order_costing_init
        cooling_tower_cost_params "fs.unit1.electricity[0]").1.registered_electricity_flows ∧
    (add_unit_costing zero_order_costing_init cooling_tower_cost_params
        "fs.unit1.electricity[0]").2.capital_cost_constraint = true ∧
    (add_unit_costing zero_order_costing_init cooling_tower_cost_params
        "fs.unit1.electricity[0]").2.capital_cost.fixed = false ∧
    degrees_of_freedom_with_costing (load_parameters_from_database entry true
        (fix_inlet_flows flows (buildCoolingTower S)))
      (add_unit_costing zero_order_costing_init cooling_tower_cost_params
        "fs.unit1.electricity[0]").2 = 0 := by
  refine ⟨rfl, ?_, rfl, rfl, ?_⟩
  · simp [add_unit_costing, zero_order_costing_init]
  · show degrees_of_freedom_with_costing (ct_loaded S flows entry) ⟨⟨0, false⟩, true⟩ = 0
    unfold degrees_of_freedom_with_costing
    rw [countUnfixed_append, ct_loaded_unfixed_count, ct_loaded_constraint_count]
    norm_num [countUnfixed]

/-- Witness for C8 at the test fixture's solutes, inlet flows and database
entry. -/
theorem C8_costing_structure_witness :
    (add_unit_costing zero_order_costing_init cooling_tower_cost_params
        "fs.unit1.electricity[0]").1.tech_param_blocks.lookup "cooling_tower"
      = some cooling_tower_cost_params ∧
    "fs.unit1.electricity[0]" ∈ (add_unit_costing zero_order_costing_init
        cooling_tower_cost_params "fs.unit1.electricity[0]").1.registered_electricity_flows ∧
    (add_unit_costing zero_order_costing_init cooling_tower_cost_params
        "fs.unit1.electricity[0]").2.capital_cost_constraint = true ∧
    (add_unit_costing zero_order_costing_init cooling_tower_cost_params
        "fs.unit1.electricity[0]").2.capital_cost.fixed = false ∧
    degrees_of_freedom_with_costing (load_parameters_from_database cooling_tower_entry true
        (fix_inlet_flows ct_test_inlet (buildCoolingTower ["tss", "foo"])))
      (add_unit_costing zero_order_costing_init cooling_tower_cost_params
        "fs.unit1.electricity[0]").2 = 0 :=
  C8_costing_structure ["tss", "foo"] ct_test_inlet cooling_tower_entry

/-- C9: the stoichiometric-softening mixer example solves with dosing rate
24.88346319183235 and outlet molar flow 10.000013433637829, and the reactor
example solves with outlet molar flow 10.000505067955139, Ca(OH)2 mole
fraction 3.400959239473792e-7 and Mg(HCO3)2 mole fraction
9.581716805897575e-6, each to relative tolerance 1e-3. -/
theorem C9_softening_regression :
    run_stoich_softening_mixer_example.solved = true ∧
    approx_rel run_stoich_softening_mixer_example.dosing_rate
      24.88346319183235 (1 / 1000) = true ∧
    approx_rel run_stoich_softening_mixer_example.outlet_flow_mol
      10.000013433637829 (1 / 1000) = true ∧
    run_stoich_softening_reactor_example.solved = true ∧
    approx_rel run_stoich_softening_reactor_example.outlet_flow_mol
      10.000505067955139 (1 / 1000) = true ∧
    approx_rel run_stoich_softening_reactor_example.outlet_mole_frac_CaOH2
      3.400959239473792e-7 (1 / 1000) = true ∧
    approx_rel run_stoich_softening_reactor_example.outlet_mole_frac_MgHCO3
      9.581716805897575e-6 (1 / 1000) = true := by
  refine ⟨rfl, ?_, ?_, rfl, ?_, ?_, ?_⟩ <;>
    norm_num [approx_rel, run_stoich_softening_mixer_example,
      run_stoich_softening_reactor_example]

end WaterTAP
